import Mathlib

/-
Verification of the plugin_framework registry (src/plugin_manager.rs) against
its natural-language specification.

The embedding models the state of a `PluginManager` as two lists (Rust `Vec`
push appends at the end, `drain(..)` yields elements front to back), and every
operation additionally returns the trace of observable events it performs:
lifecycle hook firings, the diagnostic recording of a plugin name, and library
handle releases.  The OS loader and the symbol table of a mapped library are
an environment parameter (`LoaderEnv`); the raw factory result that crosses
the FFI boundary is modelled as `Option Plugin`, `none` standing for a null
raw pointer, so that the handling of the unsafe boundary in `load_plugin` is
visible in the model.
-/

namespace PluginFramework

/-- A plugin object as seen through the `Plugin` trait: the registry only ever
uses its `name()` and its two lifecycle hooks, so the observable identity of a
plugin instance is its name together with its identity as a value. -/
structure Plugin where
  name : String
deriving DecidableEq

/-- An opaque mapped dynamic library handle (`libloading::Library`). -/
structure Library where
  id : Nat
deriving DecidableEq

/-- Observable events performed by registry operations, in program order. -/
inductive Event where
  | nameRecorded (n : String)
  | pluginLoadHook (p : Plugin)
  | pluginUnloadHook (p : Plugin)
  | libraryRelease (l : Library)
deriving DecidableEq

/-- Outcome of a fallible registry operation.  `err` carries the context
message attached by `chain_err` in the source; `ub` marks the undefined
behavior of `Box::from_raw` on a null raw pointer; `panicked` marks a Rust
panic (`todo!()`, or `Option::unwrap` on `None`). -/
inductive Outcome where
  | ok
  | err (msg : String)
  | ub
  | panicked
deriving DecidableEq

/-- The registry state: `pub plugins: Vec<Box<dyn Plugin>>` and
`pub loaded_libraries: Vec<Library>`. -/
structure PluginManager where
  plugins : List Plugin
  loaded_libraries : List Library
deriving DecidableEq

/-- `PluginManager::new()` returns the empty registry. -/
def PluginManager.new : PluginManager :=
  { plugins := [], loaded_libraries := [] }

/-- The environment `load_plugin` runs against: `openLib` is
`Library::new(filename)` (`none` when the OS loader cannot map the file) and
`getSymbol` is `lib.get(b"_plugin_create")` (`none` when the export is
missing).  A resolved symbol is a factory returning the raw pointer of a
freshly constructed plugin, `none` modelling a null raw result. -/
structure LoaderEnv where
  openLib : String → Option Library
  getSymbol : Library → Option (Unit → Option Plugin)

/-- Shallow embedding of `PluginManager::load_plugin`, following the source
line by line: map the library (`chain_err "Unable to load the plugin"` on
failure), push the handle, re-borrow the stored handle via `last().unwrap()`,
resolve `_plugin_create` (`chain_err` message on failure), invoke the factory,
reconstruct the owning box from the raw result with `Box::from_raw` (no null
check in the source: a null raw result is undefined behavior), record the name
(`debug!`), fire `on_plugin_load`, push the instance, return `Ok(())`. -/
def PluginManager.load_plugin (env : LoaderEnv) (filename : String)
    (pm : PluginManager) : Outcome × PluginManager × List Event :=
  match env.openLib filename with
  | none => (Outcome.err "Unable to load the plugin", pm, [])
  | some lib =>
    match (pm.loaded_libraries ++ [lib]).getLast? with
    | none =>
      (Outcome.panicked,
       { plugins := pm.plugins, loaded_libraries := pm.loaded_libraries ++ [lib] }, [])
    | some storedLib =>
      match env.getSymbol storedLib with
      | none =>
        (Outcome.err "The \x60_plugin_create\x60 symbol wasn\x27t found.",
         { plugins := pm.plugins, loaded_libraries := pm.loaded_libraries ++ [lib] }, [])
      | some constructor =>
        match constructor () with
        | none =>
          (Outcome.ub,
           { plugins := pm.plugins, loaded_libraries := pm.loaded_libraries ++ [lib] }, [])
        | some plugin =>
          (Outcome.ok,
           { plugins := pm.plugins ++ [plugin],
             loaded_libraries := pm.loaded_libraries ++ [lib] },
           [Event.nameRecorded plugin.name, Event.pluginLoadHook plugin])

/-- Modelled from the spec (section 4.2 step 4 and section 9): the same load
protocol but with "an explicit non-null check before ownership transfer" on
the raw factory result, a null result being intercepted as a checked error
instead of reaching `Box::from_raw`.  This definition follows the words of the
spec and exists only to be compared with `PluginManager.load_plugin`, which is
embedded from the source. -/
def PluginManager.load_plugin_checked (env : LoaderEnv) (filename : String)
    (pm : PluginManager) : Outcome × PluginManager × List Event :=
  match env.openLib filename with
  | none => (Outcome.err "Unable to load the plugin", pm, [])
  | some lib =>
    match (pm.loaded_libraries ++ [lib]).getLast? with
    | none =>
      (Outcome.panicked,
       { plugins := pm.plugins, loaded_libraries := pm.loaded_libraries ++ [lib] }, [])
    | some storedLib =>
      match env.getSymbol storedLib with
      | none =>
        (Outcome.err "The \x60_plugin_create\x60 symbol wasn\x27t found.",
         { plugins := pm.plugins, loaded_libraries := pm.loaded_libraries ++ [lib] }, [])
      | some constructor =>
        match constructor () with
        | none =>
          (Outcome.err "The factory returned a null plugin handle.",
           { plugins := pm.plugins, loaded_libraries := pm.loaded_libraries ++ [lib] }, [])
        | some plugin =>
          (Outcome.ok,
           { plugins := pm.plugins ++ [plugin],
             loaded_libraries := pm.loaded_libraries ++ [lib] },
           [Event.nameRecorded plugin.name, Event.pluginLoadHook plugin])

/-- Embedding of `PluginManager::load_plugins`: the source body is `todo!()`,
an unconditional panic, so the call never returns a `Result` value and, since
the panic happens before any mutation, unwinding leaves the registry
unchanged. -/
def PluginManager.load_plugins (_file_path : String) (pm : PluginManager) :
    Outcome × PluginManager × List Event :=
  (Outcome.panicked, pm, [])

/-- The first loop of `unload`: `for plugin in self.plugins.drain(..)` fires
`on_plugin_unload` on each drained plugin, front to back. -/
def drainUnloadHooks : List Plugin → List Event
  | [] => []
  | p :: ps => Event.pluginUnloadHook p :: drainUnloadHooks ps

/-- The second loop of `unload`: `for lib in self.loaded_libraries.drain(..)`
drops (releases) each drained library handle, front to back. -/
def drainReleaseLibraries : List Library → List Event
  | [] => []
  | l :: ls => Event.libraryRelease l :: drainReleaseLibraries ls

/-- Shallow embedding of `PluginManager::unload`: drain the plugins firing
`on_plugin_unload` on each, then drain the libraries dropping each; both
sequences end up empty and the event trace is the two loop traces in
order. -/
def PluginManager.unload (pm : PluginManager) : PluginManager × List Event :=
  ({ plugins := [], loaded_libraries := [] },
   drainUnloadHooks pm.plugins ++ drainReleaseLibraries pm.loaded_libraries)

/-- Embedding of `impl Drop for PluginManager`: if either sequence is
non-empty, run `unload`; afterwards the fields themselves are dropped, which
releases whatever library handles are still stored.  The result is the full
event trace observed when the registry goes out of scope. -/
def PluginManager.dropTrace (pm : PluginManager) : List Event :=
  let r :=
    if !pm.plugins.isEmpty || !pm.loaded_libraries.isEmpty then pm.unload
    else (pm, [])
  r.2 ++ drainReleaseLibraries r.1.loaded_libraries

/-- Recognizer for unload-hook events. -/
def Event.isUnloadHook : Event → Bool
  | Event.pluginUnloadHook _ => true
  | _ => false

/-- Recognizer for library-release events. -/
def Event.isLibraryRelease : Event → Bool
  | Event.libraryRelease _ => true
  | _ => false

/-- Recognizer for load-hook events. -/
def Event.isLoadHook : Event → Bool
  | Event.pluginLoadHook _ => true
  | _ => false

/-- The plugin an unload-hook event fires on, if any. -/
def Event.unloadHookPlugin : Event → Option Plugin
  | Event.pluginUnloadHook p => some p
  | _ => none

/-- The implicit invariant of claim C10: the registry never holds fewer
library handles than plugin instances. -/
def PluginManager.inv (pm : PluginManager) : Prop :=
  pm.plugins.length ≤ pm.loaded_libraries.length

/-! Concrete test vectors used by the witness theorems. -/

/-- A concrete library handle. -/
def libA : Library := { id := 0 }

/-- A concrete plugin instance named P1. -/
def pluginP1 : Plugin := { name := "P1" }

/-- A concrete plugin instance named P2. -/
def pluginP2 : Plugin := { name := "P2" }

/-- A registry holding two plugins (in load order P1, P2) and one library. -/
def pmEx : PluginManager :=
  { plugins := [pluginP1, pluginP2], loaded_libraries := [libA] }

/-- A registry holding one plugin and one library; it satisfies the count
invariant. -/
def pmInv : PluginManager :=
  { plugins := [pluginP1], loaded_libraries := [libA] }

/-- An environment in which every path maps to a library exporting a factory
that constructs P1. -/
def envOk : LoaderEnv :=
  { openLib := fun _ => some libA
    getSymbol := fun _ => some (fun _ => some pluginP1) }

/-- An environment in which every path maps to a library that lacks the
factory export. -/
def envNoSym : LoaderEnv :=
  { openLib := fun _ => some libA
    getSymbol := fun _ => none }

/-- An environment in which no path can be mapped by the OS loader. -/
def envNoFile : LoaderEnv :=
  { openLib := fun _ => none
    getSymbol := fun _ => none }

/-- An environment in which the factory export resolves but returns a null
raw pointer. -/
def envNullFactory : LoaderEnv :=
  { openLib := fun _ => some libA
    getSymbol := fun _ => some (fun _ => none) }

/-! Helper lemmas about the two drain loops of `unload`. -/

/-- Every event emitted by the plugin-drain loop is an unload-hook firing,
never a library release. -/
theorem isLibraryRelease_false_of_mem_drainUnloadHooks (ps : List Plugin)
    {e : Event} (h : e ∈ drainUnloadHooks ps) : e.isLibraryRelease = false := by
  induction ps with
  | nil => simp [drainUnloadHooks] at h
  | cons p ps ih =>
    simp only [drainUnloadHooks, List.mem_cons] at h
    rcases h with h | h
    · subst h; rfl
    · exact ih h

/-- Every event emitted by the library-drain loop is a library release, never
an unload-hook firing. -/
theorem isUnloadHook_false_of_mem_drainReleaseLibraries (ls : List Library)
    {e : Event} (h : e ∈ drainReleaseLibraries ls) : e.isUnloadHook = false := by
  induction ls with
  | nil => simp [drainReleaseLibraries] at h
  | cons l ls ih =>
    simp only [drainReleaseLibraries, List.mem_cons] at h
    rcases h with h | h
    · subst h; rfl
    · exact ih h

/-- Projecting the fired-on plugins out of the plugin-drain trace recovers the
plugin sequence. -/
theorem filterMap_unloadHookPlugin_drainUnloadHooks (ps : List Plugin) :
    (drainUnloadHooks ps).filterMap Event.unloadHookPlugin = ps := by
  induction ps with
  | nil => rfl
  | cons p ps ih =>
    simp [drainUnloadHooks, List.filterMap_cons, Event.unloadHookPlugin, ih]

/-- The library-drain trace contains no unload-hook firings to project. -/
theorem filterMap_unloadHookPlugin_drainReleaseLibraries (ls : List Library) :
    (drainReleaseLibraries ls).filterMap Event.unloadHookPlugin = [] := by
  induction ls with
  | nil => rfl
  | cons l ls ih =>
    simp [drainReleaseLibraries, List.filterMap_cons, Event.unloadHookPlugin, ih]

/-- C1: for every registry, `unload` fires `on_plugin_unload` on the held
plugins in exactly their load order (the unload-hook events of the trace,
in order, are the plugin sequence), and every unload-hook event strictly
precedes every library-release event in the trace: no handle is released
until after the last unload hook has returned. -/
theorem unload_hooks_in_order_before_any_release (pm : PluginManager) :
    (pm.unload.2.filterMap Event.unloadHookPlugin = pm.plugins) ∧
    (∀ (i j : Nat) (ei ej : Event),
      pm.unload.2[i]? = some ei → pm.unload.2[j]? = some ej →
      ei.isUnloadHook = true → ej.isLibraryRelease = true → i < j) := by
  constructor
  · simp [PluginManager.unload, List.filterMap_append,
      filterMap_unloadHookPlugin_drainUnloadHooks,
      filterMap_unloadHookPlugin_drainReleaseLibraries]
  · intro i j ei ej hi hj hui hrj
    simp only [PluginManager.unload] at hi hj
    have hiA : i < (drainUnloadHooks pm.plugins).length := by
      by_contra hlt
      push_neg at hlt
      rw [List.getElem?_append_right hlt] at hi
      have hmem := List.getElem?_mem hi
      rw [isUnloadHook_false_of_mem_drainReleaseLibraries _ hmem] at hui
      exact Bool.false_ne_true hui
    have hjA : (drainUnloadHooks pm.plugins).length ≤ j := by
      by_contra hlt
      push_neg at hlt
      rw [List.getElem?_append_left hlt] at hj
      have hmem := List.getElem?_mem hj
      rw [isLibraryRelease_false_of_mem_drainUnloadHooks _ hmem] at hrj
      exact Bool.false_ne_true hrj
    omega

/-- Witness for C1: on the concrete registry `pmEx` (plugins P1, P2; one
library), the trace projects to [P1, P2], position 0 is the unload hook of P1,
position 2 is the release of the library, and 0 < 2. -/
theorem unload_hooks_in_order_before_any_release_witness :
    pmEx.unload.2.filterMap Event.unloadHookPlugin = pmEx.plugins ∧
    pmEx.unload.2[0]? = some (Event.pluginUnloadHook pluginP1) ∧
    pmEx.unload.2[2]? = some (Event.libraryRelease libA) ∧ (0 : Nat) < 2 :=
  ⟨(unload_hooks_in_order_before_any_release pmEx).1, by decide, by decide,
   (unload_hooks_in_order_before_any_release pmEx).2 0 2
     (Event.pluginUnloadHook pluginP1) (Event.libraryRelease libA)
     (by decide) (by decide) (by decide) (by decide)⟩

/-- C2: dropping a registry that still holds at least one plugin instance or
library handle produces exactly the event trace of an explicit `unload()`
call: implicit teardown is behaviorally equivalent to `unload`. -/
theorem drop_equiv_unload (pm : PluginManager)
    (h : pm.plugins ≠ [] ∨ pm.loaded_libraries ≠ []) :
    pm.dropTrace = pm.unload.2 := by
  have hcond : (!pm.plugins.isEmpty || !pm.loaded_libraries.isEmpty) = true := by
    rcases h with h | h <;> simp [List.isEmpty_iff, h]
  simp [PluginManager.dropTrace, hcond, PluginManager.unload, drainReleaseLibraries]

/-- Witness for C2 at the concrete non-empty registry `pmEx`. -/
theorem drop_equiv_unload_witness :
    (pmEx.plugins ≠ [] ∨ pmEx.loaded_libraries ≠ []) ∧
    pmEx.dropTrace = pmEx.unload.2 :=
  ⟨Or.inl (by decide), drop_equiv_unload pmEx (Or.inl (by decide))⟩

/-- C3: whenever `load_plugin` returns `Ok(())`, the plugin count and the
library count have each grown by exactly one. -/
theorem load_plugin_ok_counts (env : LoaderEnv) (fn : String) (pm : PluginManager)
    (h : (PluginManager.load_plugin env fn pm).1 = Outcome.ok) :
    (PluginManager.load_plugin env fn pm).2.1.plugins.length
        = pm.plugins.length + 1 ∧
    (PluginManager.load_plugin env fn pm).2.1.loaded_libraries.length
        = pm.loaded_libraries.length + 1 := by
  cases ho : env.openLib fn with
  | none => simp [PluginManager.load_plugin, ho] at h
  | some lib =>
    cases hs : env.getSymbol lib with
    | none => simp [PluginManager.load_plugin, ho, List.getLast?_concat, hs] at h
    | some ctor =>
      cases hc : ctor () with
      | none =>
        simp [PluginManager.load_plugin, ho, List.getLast?_concat, hs, hc] at h
      | some p =>
        simp [PluginManager.load_plugin, ho, List.getLast?_concat, hs, hc]

/-- Witness for C3: a successful load on the empty registry yields counts
1 and 1. -/
theorem load_plugin_ok_counts_witness :
    (PluginManager.load_plugin envOk "a" PluginManager.new).1 = Outcome.ok ∧
    (PluginManager.load_plugin envOk "a" PluginManager.new).2.1.plugins.length
        = PluginManager.new.plugins.length + 1 ∧
    (PluginManager.load_plugin envOk "a" PluginManager.new).2.1.loaded_libraries.length
        = PluginManager.new.loaded_libraries.length + 1 :=
  ⟨rfl, load_plugin_ok_counts envOk "a" PluginManager.new rfl⟩

/-- C4: when the library maps but the factory export is missing,
`load_plugin` returns the symbol-resolution error with its exact context
message, the library sequence has grown by exactly one (the handle stays
registered), and the plugin sequence is unchanged. -/
theorem load_plugin_missing_symbol (env : LoaderEnv) (fn : String)
    (pm : PluginManager) (lib : Library)
    (ho : env.openLib fn = some lib) (hs : env.getSymbol lib = none) :
    (PluginManager.load_plugin env fn pm).1
        = Outcome.err "The \x60_plugin_create\x60 symbol wasn\x27t found." ∧
    (PluginManager.load_plugin env fn pm).2.1.loaded_libraries.length
        = pm.loaded_libraries.length + 1 ∧
    (PluginManager.load_plugin env fn pm).2.1.plugins = pm.plugins := by
  simp [PluginManager.load_plugin, ho, List.getLast?_concat, hs]

/-- Witness for C4 in the concrete environment whose library lacks the
export. -/
theorem load_plugin_missing_symbol_witness :
    envNoSym.openLib "a" = some libA ∧ envNoSym.getSymbol libA = none ∧
    ((PluginManager.load_plugin envNoSym "a" PluginManager.new).1
        = Outcome.err "The \x60_plugin_create\x60 symbol wasn\x27t found." ∧
     (PluginManager.load_plugin envNoSym "a" PluginManager.new).2.1.loaded_libraries.length
        = PluginManager.new.loaded_libraries.length + 1 ∧
     (PluginManager.load_plugin envNoSym "a" PluginManager.new).2.1.plugins
        = PluginManager.new.plugins) :=
  ⟨rfl, rfl, load_plugin_missing_symbol envNoSym "a" PluginManager.new libA rfl rfl⟩

/-- C5: when the OS loader cannot map the path, `load_plugin` returns the
load error with its context message and the registry is left completely
unchanged (same state, no events). -/
theorem load_plugin_load_error_atomic (env : LoaderEnv) (fn : String)
    (pm : PluginManager) (ho : env.openLib fn = none) :
    PluginManager.load_plugin env fn pm
      = (Outcome.err "Unable to load the plugin", pm, []) := by
  simp [PluginManager.load_plugin, ho]

/-- Witness for C5 in the concrete environment whose loader maps nothing. -/
theorem load_plugin_load_error_atomic_witness :
    envNoFile.openLib "a" = none ∧
    PluginManager.load_plugin envNoFile "a" pmEx
      = (Outcome.err "Unable to load the plugin", pmEx, []) :=
  ⟨rfl, load_plugin_load_error_atomic envNoFile "a" pmEx rfl⟩

/-- C6: `unload` is idempotent: after one `unload` both sequences are empty,
a second `unload` emits no events at all, and on any already-empty registry
`unload` is a no-op (same state, empty trace). -/
theorem unload_idempotent (pm : PluginManager) :
    (pm.unload.1.unload).2 = [] ∧ pm.unload.1.plugins = [] ∧
    pm.unload.1.loaded_libraries = [] ∧
    (∀ q : PluginManager, q.plugins = [] → q.loaded_libraries = [] →
      q.unload = (q, [])) := by
  refine ⟨rfl, rfl, rfl, ?_⟩
  intro q h1 h2
  cases q with
  | mk pl ll =>
    simp only at h1 h2
    subst h1
    subst h2
    rfl

/-- Witness for C6: the second `unload` on `pmEx` is silent, and `unload` is
a no-op on the concrete empty registry. -/
theorem unload_idempotent_witness :
    PluginManager.new.plugins = [] ∧ PluginManager.new.loaded_libraries = [] ∧
    PluginManager.new.unload = (PluginManager.new, []) ∧
    (pmEx.unload.1.unload).2 = [] :=
  ⟨rfl, rfl, (unload_idempotent pmEx).2.2.2 PluginManager.new rfl rfl,
   (unload_idempotent pmEx).1⟩

/-- C7 counterexample: the claim that the registry performs an explicit
non-null check on the raw factory result before taking ownership is false of
the source.  In the concrete environment whose factory returns a null raw
pointer, the source embedding (which reconstructs the owning box
unconditionally, hitting undefined behavior) disagrees with the spec-modelled
checked variant (which would intercept the null result as an error before
ownership transfer). -/
theorem load_plugin_no_null_check_cex :
    PluginManager.load_plugin envNullFactory "p" PluginManager.new
      ≠ PluginManager.load_plugin_checked envNullFactory "p" PluginManager.new := by
  decide

/-- C7 (amended): the factory is declared to return a non-null owning
reference and `load_plugin` reconstructs the owning box from the raw result
unconditionally, with no explicit runtime non-null check: a null raw result
reaches `Box::from_raw` and is undefined behavior rather than a checked
error, while any non-null result transfers ownership of the referenced plugin
object to the registry. -/
theorem load_plugin_null_unchecked (env : LoaderEnv) (fn : String)
    (pm : PluginManager) (lib : Library) (ctor : Unit → Option Plugin)
    (ho : env.openLib fn = some lib) (hs : env.getSymbol lib = some ctor) :
    (ctor () = none → (PluginManager.load_plugin env fn pm).1 = Outcome.ub) ∧
    (∀ p : Plugin, ctor () = some p →
      (PluginManager.load_plugin env fn pm).1 = Outcome.ok ∧
      (PluginManager.load_plugin env fn pm).2.1.plugins = pm.plugins ++ [p]) := by
  constructor
  · intro hc
    simp [PluginManager.load_plugin, ho, List.getLast?_concat, hs, hc]
  · intro p hc
    simp [PluginManager.load_plugin, ho, List.getLast?_concat, hs, hc]

/-- Witness for the amended C7: in the null-factory environment the load
reaches the unchecked `Box::from_raw`, and in the well-behaved environment
ownership of P1 transfers to the registry. -/
theorem load_plugin_null_unchecked_witness :
    envNullFactory.openLib "p" = some libA ∧
    envNullFactory.getSymbol libA = some (fun _ => none) ∧
    (PluginManager.load_plugin envNullFactory "p" PluginManager.new).1
      = Outcome.ub :=
  ⟨rfl, rfl,
   (load_plugin_null_unchecked envNullFactory "p" PluginManager.new libA
      (fun _ => none) rfl rfl).1 rfl⟩

/-- C8: when `load_plugin` succeeds there is a plugin instance p such that
the event trace is exactly [name recorded, `on_plugin_load` fired on p] — the
hook fires exactly once, after the name is recorded for diagnostics, before
success is returned — and p is the instance appended to the registry; on
every failure path the trace is empty, so no failure fires
`on_plugin_load`. -/
theorem load_plugin_fires_load_hook_once (env : LoaderEnv) (fn : String)
    (pm : PluginManager) :
    ((PluginManager.load_plugin env fn pm).1 = Outcome.ok →
      ∃ p : Plugin,
        (PluginManager.load_plugin env fn pm).2.2
          = [Event.nameRecorded p.name, Event.pluginLoadHook p] ∧
        (PluginManager.load_plugin env fn pm).2.1.plugins = pm.plugins ++ [p]) ∧
    ((PluginManager.load_plugin env fn pm).1 ≠ Outcome.ok →
      (PluginManager.load_plugin env fn pm).2.2 = []) := by
  cases ho : env.openLib fn with
  | none =>
    refine ⟨fun h => ?_, fun _ => ?_⟩
    · simp [PluginManager.load_plugin, ho] at h
    · simp [PluginManager.load_plugin, ho]
  | some lib =>
    cases hs : env.getSymbol lib with
    | none =>
      refine ⟨fun h => ?_, fun _ => ?_⟩
      · simp [PluginManager.load_plugin, ho, List.getLast?_concat, hs] at h
      · simp [PluginManager.load_plugin, ho, List.getLast?_concat, hs]
    | some ctor =>
      cases hc : ctor () with
      | none =>
        refine ⟨fun h => ?_, fun _ => ?_⟩
        · simp [PluginManager.load_plugin, ho, List.getLast?_concat, hs, hc] at h
        · simp [PluginManager.load_plugin, ho, List.getLast?_concat, hs, hc]
      | some p =>
        refine ⟨fun _ => ⟨p, ?_, ?_⟩, fun hne => absurd ?_ hne⟩
        · simp [PluginManager.load_plugin, ho, List.getLast?_concat, hs, hc]
        · simp [PluginManager.load_plugin, ho, List.getLast?_concat, hs, hc]
        · simp [PluginManager.load_plugin, ho, List.getLast?_concat, hs, hc]

/-- Witness for C8: the successful load in the concrete environment fires the
hook exactly once, after recording the name. -/
theorem load_plugin_fires_load_hook_once_witness :
    (PluginManager.load_plugin envOk "a" PluginManager.new).1 = Outcome.ok ∧
    ∃ p : Plugin,
      (PluginManager.load_plugin envOk "a" PluginManager.new).2.2
        = [Event.nameRecorded p.name, Event.pluginLoadHook p] ∧
      (PluginManager.load_plugin envOk "a" PluginManager.new).2.1.plugins
        = PluginManager.new.plugins ++ [p] :=
  ⟨rfl, (load_plugin_fires_load_hook_once envOk "a" PluginManager.new).1 rfl⟩

/-- C9: `load_plugins` is declared but unimplemented: its body is `todo!()`,
an unconditional panic, so for every directory argument and state the call
never produces a `Result` value (outcome is `panicked`, which is neither `ok`
nor `err`), and the registry passed in is left unchanged with no events. -/
theorem load_plugins_unimplemented (fp : String) (pm : PluginManager) :
    PluginManager.load_plugins fp pm = (Outcome.panicked, pm, []) := rfl

/-- C10: the implicit count invariant plugins ≤ libraries holds for the empty
registry produced by `new`, is preserved by `load_plugin` whatever its
outcome (success adds one of each; each failure path adds at most one library
and no plugin), and holds unconditionally after `unload`, which empties both
sequences. -/
theorem inv_new_load_unload_preserved :
    PluginManager.new.inv ∧
    (∀ (env : LoaderEnv) (fn : String) (pm : PluginManager),
      pm.inv → (PluginManager.load_plugin env fn pm).2.1.inv) ∧
    (∀ pm : PluginManager, pm.unload.1.inv) := by
  refine ⟨Nat.le_refl 0, ?_, fun pm => Nat.le_refl 0⟩
  intro env fn pm h
  simp only [PluginManager.inv] at h ⊢
  cases ho : env.openLib fn with
  | none => simpa [PluginManager.load_plugin, ho] using h
  | some lib =>
    cases hs : env.getSymbol lib with
    | none =>
      simp [PluginManager.load_plugin, ho, List.getLast?_concat, hs]
      omega
    | some ctor =>
      cases hc : ctor () with
      | none =>
        simp [PluginManager.load_plugin, ho, List.getLast?_concat, hs, hc]
        omega
      | some p =>
        simp [PluginManager.load_plugin, ho, List.getLast?_concat, hs, hc]
        omega

/-- Witness for C10: the invariant holds at the concrete registry `pmInv` and
is preserved by a concrete successful load. -/
theorem inv_new_load_unload_preserved_witness :
    pmInv.inv ∧ (PluginManager.load_plugin envOk "a" pmInv).2.1.inv :=
  ⟨by simp [PluginManager.inv, pmInv],
   inv_new_load_unload_preserved.2.1 envOk "a" pmInv
     (by simp [PluginManager.inv, pmInv])⟩

end PluginFramework
